import Mathlib

/-!
# Verification of the nat-failover control loop

Shallow embedding of `src/main.rs` and `src/alerts.rs` of aruhier/nat-failover.

The program is a detection-and-failover loop:
* `ping` (main.rs:203-228) reduces a stream of probe replies to a single
  `Result<()>` verdict;
* `DetectionLoop::run` (main.rs:95-151) awaits the default-path ping, and on
  success the policy-path ping, then reconciles an iptables MASQUERADE rule and
  drives an Alertmanager alert;
* `inject_nat_masquerade` / `cleanup_nat_masquerade` (main.rs:153-200) are the
  check-then-mutate firewall operations;
* `Alert::trigger` / `Alert::resolve` (alerts.rs:37-57) manage the alert
  timestamps and post to Alertmanager.

Network I/O, iptables and the Alertmanager transport are modelled by explicit
inputs (per-cycle probe streams and fault flags for the backend calls) and by
an effect trace recording probe executions, firewall calls and alert posts.
-/

namespace NatFailover

/-- One item yielded by the netdiag ping stream, as consumed in main.rs:209-215:
`Ok(Some(_))` is a successful reply, `Ok(None)` a timeout (no reply), and
`Err(_)` a probe-local transport error. -/
inductive PingItem
  | success
  | timeout
  | throwErr
  deriving DecidableEq, Repr

/-- Outcome of `ping`: `Ok(())` or `Err(_)` (main.rs:203). -/
inductive PingOutcome
  | ok
  | err
  deriving DecidableEq, Repr

/-- Observable result of one run of `ping`: its outcome, the number of stream
items consumed (probe attempts issued), and the number of fixed 500ms
inter-attempt delays performed (main.rs:223). -/
structure PingRun where
  outcome : PingOutcome
  consumed : Nat
  sleeps500 : Nat
  deriving DecidableEq, Repr

/-- Embedding of `Ping.count` as built in `DetectionLoop::new` (main.rs:73):
`count: std::cmp::max(args.retries, 1)`. -/
def pingCount (retries : Nat) : Nat := max retries 1

/-- The loop body of `ping` (main.rs:207-227).  `retries` is `args.retries`,
`cnt` is `ping_opts.count`; `count` and `errors` are the two mutable loop
counters; `consumed` and `sleeps` accumulate the observable effects.
`item?` on an `Err` stream item returns that error from `ping` at once;
`Some(_)` returns `Ok(())` at once; `None` increments `errors`, and if
`errors >= retries` the function returns `Err`; otherwise `count` is
incremented and, if `count < cnt`, the 500ms sleep runs before the next
attempt. -/
def pingAux (retries cnt : Nat) :
    List PingItem → Nat → Nat → Nat → Nat → PingRun
  | [], _count, _errors, consumed, sleeps =>
      { outcome := .ok, consumed := consumed, sleeps500 := sleeps }
  | item :: rest, count, errors, consumed, sleeps =>
      match item with
      | .throwErr =>
          { outcome := .err, consumed := consumed + 1, sleeps500 := sleeps }
      | .success =>
          { outcome := .ok, consumed := consumed + 1, sleeps500 := sleeps }
      | .timeout =>
          if retries ≤ errors + 1 then
            { outcome := .err, consumed := consumed + 1, sleeps500 := sleeps }
          else if count + 1 < cnt then
            pingAux retries cnt rest (count + 1) (errors + 1) (consumed + 1)
              (sleeps + 1)
          else
            pingAux retries cnt rest (count + 1) (errors + 1) (consumed + 1)
              sleeps

/-- Run of `ping` (main.rs:203-228) over a given stream of probe items. -/
def pingRun (retries cnt : Nat) (items : List PingItem) : PingRun :=
  pingAux retries cnt items 0 0 0 0

/-- The `Alert` struct (alerts.rs:9-20), restricted to its mutable timestamp
fields.  `labels` and `annotations` are constant for the process lifetime
(alerts.rs:23-35) and carry no state, so they are omitted.  Timestamps
(`Utc::now().to_rfc3339()`) are abstracted as naturals supplied by the caller
as the current clock value. -/
structure Alert where
  starts_at : Option Nat
  ends_at : Option Nat
  deriving DecidableEq, Repr

/-- Constructor `Alert::new` (alerts.rs:23-35): both timestamps start empty. -/
def Alert.new : Alert := { starts_at := none, ends_at := none }

/-- The two ping source bindings: `pinger_default` (unbound) and
`pinger_test_from` (bound to `args.from`), main.rs:80-81. -/
inductive Path
  | defaultPath
  | policyPath
  deriving DecidableEq, Repr

/-- Observable effects of the loop body: a ping future being awaited (its
network I/O performed), the three iptables calls `exists` / `insert_unique` /
`delete` (main.rs:154-193), and `post_alert` (alerts.rs:60) with the alert
payload's timestamps at post time. -/
inductive Eff
  | probe (p : Path)
  | fwExists
  | fwInsert
  | fwDelete
  | post (starts_at ends_at : Option Nat)
  deriving DecidableEq, Repr

/-- Method `Alert::trigger` (alerts.rs:37-43): set `starts_at` only if it is `None`,
then unconditionally post the alert.  Returns the updated alert and the
emitted effects. -/
def Alert.trigger (a : Alert) (now : Nat) : Alert × List Eff :=
  if a.starts_at.isNone then
    ({ a with starts_at := some now }, [.post (some now) a.ends_at])
  else (a, [.post a.starts_at a.ends_at])

/-- Method `Alert::resolve` (alerts.rs:45-57): return at once if `starts_at` is
`None`; otherwise set `ends_at`, post, then clear both timestamps. -/
def Alert.resolve (a : Alert) (now : Nat) : Alert × List Eff :=
  if a.starts_at.isNone then (a, [])
  else (Alert.new, [.post a.starts_at (some now)])

/-- The iptables backend as seen by this program: only one rule is ever
managed (`masquerade_rule`, main.rs:230-232), so the backend state is whether
that rule is present in the nat POSTROUTING chain. -/
structure Backend where
  rulePresent : Bool
  deriving DecidableEq, Repr

/-- Rust `Result<(), _>` of a firewall reconciliation. -/
inductive FwResult
  | ok
  | err
  deriving DecidableEq, Repr

/-- Method `DetectionLoop::inject_nat_masquerade` (main.rs:153-176): call `exists`;
on its failure return `Err`; if the rule is absent call `insert_unique`
(position 1) and propagate its result; otherwise return `Ok` with no mutating
call.  `existsFault` / `mutFault` model the backend commands failing this
call. -/
def inject_nat_masquerade (b : Backend) (existsFault mutFault : Bool) :
    FwResult × Backend × List Eff :=
  if existsFault then (.err, b, [.fwExists])
  else if !b.rulePresent then
    if mutFault then (.err, b, [.fwExists, .fwInsert])
    else (.ok, { rulePresent := true }, [.fwExists, .fwInsert])
  else (.ok, b, [.fwExists])

/-- Method `DetectionLoop::cleanup_nat_masquerade` (main.rs:178-200): call `exists`;
on its failure return `Err`; if the rule is present call `delete` and
propagate its result; otherwise return `Ok` with no mutating call. -/
def cleanup_nat_masquerade (b : Backend) (existsFault mutFault : Bool) :
    FwResult × Backend × List Eff :=
  if existsFault then (.err, b, [.fwExists])
  else if b.rulePresent then
    if mutFault then (.err, b, [.fwExists, .fwDelete])
    else (.ok, { rulePresent := false }, [.fwExists, .fwDelete])
  else (.ok, b, [.fwExists])

/-- The mutable state of `DetectionLoop::run` (main.rs:95-99) plus the
external backend: the `nat_switch` boolean, the `alert` struct, and the
iptables rule state. -/
structure LoopState where
  nat_switch : Bool
  alert : Alert
  backend : Backend
  deriving DecidableEq, Repr

/-- The in-memory state at loop entry (main.rs:97-98): `nat_switch` is `true`
("to force a clean-up of the NAT rule if the first ping succeeds"), the alert
fresh.  The backend state is external and is a parameter. -/
def initState (b : Backend) : LoopState :=
  { nat_switch := true, alert := Alert.new, backend := b }

/-- External inputs of one loop iteration: the two probe streams the netdiag
pingers would yield this cycle, the backend fault flags for this cycle's
iptables calls, and the current clock value for `Utc::now()`. -/
structure CycleInput where
  defaultItems : List PingItem
  policyItems : List PingItem
  existsFault : Bool
  mutFault : Bool
  now : Nat
  deriving DecidableEq, Repr

/-- One iteration of the `loop` in `DetectionLoop::run` (main.rs:100-149).
The two ping futures are created first (main.rs:101-102) but, futures being
lazy, perform no I/O until awaited: `future_default.await` runs the default
ping, and only in its `Ok` branch is `future_test_from.await` reached
(main.rs:104-107).  The trace records each awaited probe, the firewall calls
and the alert posts, in order.  `Alert.trigger` / `Alert.resolve` being pure
here, their two projections denote the updated alert and the posts of the one
call the Rust code makes. -/
def cycle (retries : Nat) (s : LoopState) (inp : CycleInput) :
    LoopState × List Eff :=
  match (pingRun retries (pingCount retries) inp.defaultItems).outcome with
  | .err => (s, [.probe .defaultPath])
  | .ok =>
    match (pingRun retries (pingCount retries) inp.policyItems).outcome with
    | .err =>
      match inject_nat_masquerade s.backend inp.existsFault inp.mutFault with
      | (.err, b, fwEffs) =>
          ({ s with backend := b },
           .probe .defaultPath :: .probe .policyPath :: fwEffs)
      | (.ok, b, fwEffs) =>
          ({ nat_switch := true, alert := (Alert.trigger s.alert inp.now).1,
             backend := b },
           .probe .defaultPath :: .probe .policyPath ::
             (fwEffs ++ (Alert.trigger s.alert inp.now).2))
    | .ok =>
      if s.nat_switch then
        match cleanup_nat_masquerade s.backend inp.existsFault inp.mutFault with
        | (.err, b, fwEffs) =>
            ({ s with backend := b },
             .probe .defaultPath :: .probe .policyPath :: fwEffs)
        | (.ok, b, fwEffs) =>
            ({ nat_switch := false, alert := (Alert.resolve s.alert inp.now).1,
               backend := b },
             .probe .defaultPath :: .probe .policyPath ::
               (fwEffs ++ (Alert.resolve s.alert inp.now).2))
      else (s, [.probe .defaultPath, .probe .policyPath])

/-- Run a finite number of loop iterations, concatenating the traces. -/
def runCycles (retries : Nat) (s : LoopState) :
    List CycleInput → LoopState × List Eff
  | [] => (s, [])
  | inp :: rest =>
      let (s1, e1) := cycle retries s inp
      let (s2, e2) := runCycles retries s1 rest
      (s2, e1 ++ e2)

/-- An "incident opened" post: `trigger` always posts with `ends_at = None`
(alerts.rs:37-43, `ends_at` is only ever set inside `resolve` and cleared
again before it returns). -/
def Eff.isOpenedPost : Eff → Bool
  | .post _ none => true
  | _ => false

/-- An "incident closed" post: a post whose payload carries an `ends_at`. -/
def Eff.isClosedPost : Eff → Bool
  | .post _ (some _) => true
  | _ => false

/-- A mutating firewall call (insert or delete, not the existence check). -/
def Eff.isFwMutation : Eff → Bool
  | .fwInsert => true
  | .fwDelete => true
  | _ => false

/-- Any firewall backend call. -/
def Eff.isFwCall : Eff → Bool
  | .fwExists => true
  | .fwInsert => true
  | .fwDelete => true
  | _ => false

/-- Any alert post. -/
def Eff.isPost : Eff → Bool
  | .post _ _ => true
  | _ => false

/-! ## Helper lemmas -/

/-- Running `pingAux` through a prefix of timeouts that neither exhausts the
error budget nor the attempt count just advances all four counters by the
prefix length, sleeping once per timeout. -/
theorem pingAux_timeouts_advance (retries cnt : Nat) (pre : List PingItem)
    (htm : ∀ x ∈ pre, x = PingItem.timeout) :
    ∀ tail count errors consumed sleeps,
      errors + pre.length < retries →
      count + pre.length < cnt →
      pingAux retries cnt (pre ++ tail) count errors consumed sleeps =
        pingAux retries cnt tail (count + pre.length) (errors + pre.length)
          (consumed + pre.length) (sleeps + pre.length) := by
  induction pre with
  | nil => intro tail count errors consumed sleeps _ _; simp
  | cons x pre ih =>
      intro tail count errors consumed sleeps h1 h2
      have hx : x = PingItem.timeout := htm x (List.mem_cons_self x pre)
      subst hx
      have h1' : errors + pre.length + 1 < retries := by
        simp [List.length_cons] at h1; omega
      have h2' : count + pre.length + 1 < cnt := by
        simp [List.length_cons] at h2; omega
      have step :
          pingAux retries cnt (PingItem.timeout :: (pre ++ tail)) count errors
              consumed sleeps =
            pingAux retries cnt (pre ++ tail) (count + 1) (errors + 1)
              (consumed + 1) (sleeps + 1) := by
        rw [pingAux]
        rw [if_neg (by omega), if_pos (by omega)]
      rw [List.cons_append, step,
        ih (fun x hx => htm x (List.mem_cons_of_mem _ hx)) tail (count + 1)
          (errors + 1) (consumed + 1) (sleeps + 1) (by omega) (by omega)]
      simp only [List.length_cons]
      have e1 : count + 1 + pre.length = count + (pre.length + 1) := by omega
      have e2 : errors + 1 + pre.length = errors + (pre.length + 1) := by omega
      have e3 : consumed + 1 + pre.length = consumed + (pre.length + 1) := by
        omega
      have e4 : sleeps + 1 + pre.length = sleeps + (pre.length + 1) := by omega
      rw [e1, e2, e3, e4]

/-- A cycle whose default-path ping returns `Err` only logs: the state is
returned unchanged and the only effect is the default probe itself
(main.rs:104, 144-148; the policy-path future is dropped unawaited). -/
theorem cycle_default_err (retries : Nat) (s : LoopState) (inp : CycleInput)
    (h : (pingRun retries (pingCount retries) inp.defaultItems).outcome =
      PingOutcome.err) :
    cycle retries s inp = (s, [Eff.probe Path.defaultPath]) := by
  unfold cycle
  rw [h]

/-- A run of cycles whose default-path pings all return `Err` leaves the loop
state unchanged. -/
theorem runCycles_state_of_err (retries : Nat) (s : LoopState) :
    ∀ pre : List CycleInput,
      (∀ i ∈ pre,
        (pingRun retries (pingCount retries) i.defaultItems).outcome =
          PingOutcome.err) →
      (runCycles retries s pre).1 = s := by
  intro pre
  induction pre with
  | nil => intro _; rfl
  | cons i rest ih =>
      intro h
      have hc := cycle_default_err retries s i (h i (List.mem_cons_self i rest))
      simp only [runCycles, hc]
      exact ih fun j hj => h j (List.mem_cons_of_mem _ hj)

/-- Splitting a run of cycles at an append boundary. -/
theorem runCycles_append (retries : Nat) (s : LoopState)
    (l1 l2 : List CycleInput) :
    runCycles retries s (l1 ++ l2) =
      ((runCycles retries (runCycles retries s l1).1 l2).1,
       (runCycles retries s l1).2 ++
         (runCycles retries (runCycles retries s l1).1 l2).2) := by
  induction l1 generalizing s with
  | nil => simp [runCycles]
  | cons i rest ih =>
      simp only [List.cons_append, runCycles, List.append_eq]
      rw [ih ((cycle retries s i).1)]
      simp [List.append_assoc]

/-- The NatFallback branch (main.rs:108-128) with a successful firewall
reconciliation: turn the switch on, trigger the alert, trace the probes, the
firewall calls and the post. -/
theorem cycle_fallback_ok (retries : Nat) (s : LoopState) (inp : CycleInput)
    (b : Backend) (fwEffs : List Eff)
    (hd : (pingRun retries (pingCount retries) inp.defaultItems).outcome =
      PingOutcome.ok)
    (hp : (pingRun retries (pingCount retries) inp.policyItems).outcome =
      PingOutcome.err)
    (hinj : inject_nat_masquerade s.backend inp.existsFault inp.mutFault =
      (FwResult.ok, b, fwEffs)) :
    cycle retries s inp =
      ({ nat_switch := true, alert := (Alert.trigger s.alert inp.now).1,
         backend := b },
       .probe .defaultPath :: .probe .policyPath ::
         (fwEffs ++ (Alert.trigger s.alert inp.now).2)) := by
  unfold cycle
  rw [hd, hp, hinj]

/-- The NatFallback branch when the firewall reconciliation fails
(main.rs:122): the error is only logged — switch and alert untouched. -/
theorem cycle_fallback_fwErr (retries : Nat) (s : LoopState) (inp : CycleInput)
    (b : Backend) (fwEffs : List Eff)
    (hd : (pingRun retries (pingCount retries) inp.defaultItems).outcome =
      PingOutcome.ok)
    (hp : (pingRun retries (pingCount retries) inp.policyItems).outcome =
      PingOutcome.err)
    (hinj : inject_nat_masquerade s.backend inp.existsFault inp.mutFault =
      (FwResult.err, b, fwEffs)) :
    cycle retries s inp =
      ({ s with backend := b },
       .probe .defaultPath :: .probe .policyPath :: fwEffs) := by
  unfold cycle
  rw [hd, hp, hinj]

/-- The Direct branch with the switch on and a successful cleanup
(main.rs:131-139): turn the switch off and resolve the alert. -/
theorem cycle_direct_on_ok (retries : Nat) (s : LoopState) (inp : CycleInput)
    (b : Backend) (fwEffs : List Eff)
    (hd : (pingRun retries (pingCount retries) inp.defaultItems).outcome =
      PingOutcome.ok)
    (hp : (pingRun retries (pingCount retries) inp.policyItems).outcome =
      PingOutcome.ok)
    (hsw : s.nat_switch = true)
    (hcl : cleanup_nat_masquerade s.backend inp.existsFault inp.mutFault =
      (FwResult.ok, b, fwEffs)) :
    cycle retries s inp =
      ({ nat_switch := false, alert := (Alert.resolve s.alert inp.now).1,
         backend := b },
       .probe .defaultPath :: .probe .policyPath ::
         (fwEffs ++ (Alert.resolve s.alert inp.now).2)) := by
  unfold cycle
  rw [hd, hp, hsw, if_pos rfl, hcl]

/-- The Direct branch with the switch on and a failing cleanup
(main.rs:134): the error is only logged. -/
theorem cycle_direct_on_fwErr (retries : Nat) (s : LoopState)
    (inp : CycleInput) (b : Backend) (fwEffs : List Eff)
    (hd : (pingRun retries (pingCount retries) inp.defaultItems).outcome =
      PingOutcome.ok)
    (hp : (pingRun retries (pingCount retries) inp.policyItems).outcome =
      PingOutcome.ok)
    (hsw : s.nat_switch = true)
    (hcl : cleanup_nat_masquerade s.backend inp.existsFault inp.mutFault =
      (FwResult.err, b, fwEffs)) :
    cycle retries s inp =
      ({ s with backend := b },
       .probe .defaultPath :: .probe .policyPath :: fwEffs) := by
  unfold cycle
  rw [hd, hp, hsw, if_pos rfl, hcl]

/-- The Direct branch with the switch off (main.rs:131, the `if nat_switch`
guard is false): nothing but the two probes happens. -/
theorem cycle_direct_off (retries : Nat) (s : LoopState) (inp : CycleInput)
    (hd : (pingRun retries (pingCount retries) inp.defaultItems).outcome =
      PingOutcome.ok)
    (hp : (pingRun retries (pingCount retries) inp.policyItems).outcome =
      PingOutcome.ok)
    (hsw : s.nat_switch = false) :
    cycle retries s inp =
      (s, [.probe .defaultPath, .probe .policyPath]) := by
  unfold cycle
  rw [hd, hp, hsw, if_neg (by simp)]

/-- Both firewall operations always issue the existence check, whatever the
backend state and faults. -/
theorem fw_exists_mem (b : Backend) (ef mf : Bool) :
    Eff.fwExists ∈ (inject_nat_masquerade b ef mf).2.2 ∧
    Eff.fwExists ∈ (cleanup_nat_masquerade b ef mf).2.2 := by
  obtain ⟨p⟩ := b
  cases p <;> cases ef <;> cases mf <;> decide

/-- Neither firewall operation emits an alert post, whatever the backend
state and faults. -/
theorem fw_no_post (b : Backend) (ef mf : Bool) :
    (inject_nat_masquerade b ef mf).2.2.filter Eff.isPost = [] ∧
    (cleanup_nat_masquerade b ef mf).2.2.filter Eff.isPost = [] := by
  obtain ⟨p⟩ := b
  cases p <;> cases ef <;> cases mf <;> decide

/-- Every call of `Alert::trigger` emits exactly one post (alerts.rs:42
posts unconditionally). -/
theorem trigger_post_count (a : Alert) (now : Nat) :
    ((Alert.trigger a now).2.filter Eff.isPost).length = 1 := by
  cases h : a.starts_at.isNone <;> simp [Alert.trigger, h, Eff.isPost]

/-! ## Claims -/

/-- C6: `ping` returns `Ok` (Reachable) immediately on the first
successful probe reply, consuming no further stream items; it returns `Err`
(Unreachable) as soon as the number of failed attempts reaches the configured
retries count, consuming exactly `retries` items; one fixed 500ms delay is
performed between consecutive unsuccessful attempts (`pre.length` delays
before the success, `retries - 1` delays among the `retries` failures). -/
theorem ping_shortcircuit_and_exhaustion (retries : Nat) (hr : 1 ≤ retries) :
    (∀ pre rest : List PingItem, (∀ x ∈ pre, x = PingItem.timeout) →
        pre.length < retries →
        pingRun retries (pingCount retries)
            (pre ++ PingItem.success :: rest) =
          { outcome := .ok, consumed := pre.length + 1,
            sleeps500 := pre.length }) ∧
    (∀ pre rest : List PingItem, (∀ x ∈ pre, x = PingItem.timeout) →
        pre.length = retries →
        pingRun retries (pingCount retries) (pre ++ rest) =
          { outcome := .err, consumed := retries,
            sleeps500 := retries - 1 }) := by
  constructor
  · intro pre rest htm hlen
    unfold pingRun
    rw [pingAux_timeouts_advance retries (pingCount retries) pre htm
      (PingItem.success :: rest) 0 0 0 0 (by omega)
      (by simp only [pingCount]; omega)]
    simp [pingAux]
  · intro pre rest htm hlen
    have hne : pre ≠ [] := by
      intro h
      rw [h] at hlen
      simp at hlen
      omega
    have hsplit := List.dropLast_append_getLast hne
    have hlast : pre.getLast hne = PingItem.timeout :=
      htm _ (List.getLast_mem hne)
    have hdl : ∀ x ∈ pre.dropLast, x = PingItem.timeout := by
      intro x hx
      exact htm x (List.dropLast_subset pre hx)
    have hdlen : pre.dropLast.length = retries - 1 := by
      rw [List.length_dropLast, hlen]
    rw [← hsplit, hlast]
    unfold pingRun
    rw [List.append_assoc, List.singleton_append]
    rw [pingAux_timeouts_advance retries (pingCount retries) pre.dropLast hdl
      (PingItem.timeout :: rest) 0 0 0 0 (by omega)
      (by simp only [pingCount]; omega)]
    rw [pingAux, if_pos (by omega)]
    rw [hdlen]
    have : retries - 1 + 1 = retries := by omega
    simp [this]

/-- Witness for C6 at retries = 2: one timeout then a success gives `Ok`
after two attempts and one delay; two timeouts exhaust the budget and give
`Err` after two attempts and one delay. -/
theorem ping_shortcircuit_and_exhaustion_witness :
    pingRun 2 (pingCount 2) [PingItem.timeout, PingItem.success] =
        { outcome := .ok, consumed := 2, sleeps500 := 1 } ∧
    pingRun 2 (pingCount 2)
        [PingItem.timeout, PingItem.timeout, PingItem.success] =
        { outcome := .err, consumed := 2, sleeps500 := 1 } := by
  constructor
  · exact (ping_shortcircuit_and_exhaustion 2 (by decide)).1
      [PingItem.timeout] [] (by decide) (by decide)
  · exact (ping_shortcircuit_and_exhaustion 2 (by decide)).2
      [PingItem.timeout, PingItem.timeout] [PingItem.success] (by decide)
      (by decide)

/-- C10: if the probe stream terminates after yielding only failures
(timeouts) but fewer of them than `retries`, the while loop falls through and
`ping` returns `Ok` — a Reachable verdict with zero successful replies
(main.rs:227). -/
theorem ping_short_stream_ok (retries : Nat) (items : List PingItem)
    (htm : ∀ x ∈ items, x = PingItem.timeout)
    (hlen : items.length < retries) :
    pingRun retries (pingCount retries) items =
      { outcome := .ok, consumed := items.length,
        sleeps500 := items.length } := by
  unfold pingRun
  have h := pingAux_timeouts_advance retries (pingCount retries) items htm
    [] 0 0 0 0 (by omega) (by simp only [pingCount]; omega)
  rw [List.append_nil] at h
  rw [h]
  simp [pingAux]

/-- Witness for C10: five retries, a stream of two timeouts only, verdict
`Ok`. -/
theorem ping_short_stream_ok_witness :
    pingRun 5 (pingCount 5) [PingItem.timeout, PingItem.timeout] =
      { outcome := .ok, consumed := 2, sleeps500 := 2 } :=
  ping_short_stream_ok 5 [PingItem.timeout, PingItem.timeout] (by decide)
    (by decide)

/-- C7 counterexample: an `Err` stream item (probe-local transport
error) is NOT treated as one failed attempt that lets remaining attempts
proceed — `item?` (main.rs:210) propagates it, so with 5 retries a stream
whose first item is a transport error followed by a would-be success returns
`Err` at once, having consumed a single attempt, whereas the claim predicts
the remaining attempts proceed and yield the success. -/
theorem ping_transport_err_counterexample :
    pingRun 5 (pingCount 5) [PingItem.throwErr, PingItem.success] =
      { outcome := .err, consumed := 1, sleeps500 := 0 } := by decide

/-- C7 amended: a probe-local transport error makes `ping` return the
`Err` verdict immediately (never `Ok`/Reachable), aborting the remaining
attempts instead of counting as one failed attempt among the retries; the
outer loop treats that `Err` like any failed default-path probe — it logs,
leaves all state unchanged, and continues. -/
theorem ping_transport_err_aborts (retries : Nat) (pre rest : List PingItem)
    (htm : ∀ x ∈ pre, x = PingItem.timeout) (hlen : pre.length < retries) :
    pingRun retries (pingCount retries) (pre ++ PingItem.throwErr :: rest) =
      { outcome := .err, consumed := pre.length + 1,
        sleeps500 := pre.length } ∧
    ∀ (s : LoopState) (inp : CycleInput),
      inp.defaultItems = pre ++ PingItem.throwErr :: rest →
      cycle retries s inp = (s, [Eff.probe Path.defaultPath]) := by
  have hping :
      pingRun retries (pingCount retries)
          (pre ++ PingItem.throwErr :: rest) =
        { outcome := .err, consumed := pre.length + 1,
          sleeps500 := pre.length } := by
    unfold pingRun
    rw [pingAux_timeouts_advance retries (pingCount retries) pre htm
      (PingItem.throwErr :: rest) 0 0 0 0 (by omega)
      (by simp only [pingCount]; omega)]
    simp [pingAux]
  refine ⟨hping, ?_⟩
  intro s inp hitems
  exact cycle_default_err retries s inp (by rw [hitems, hping])

/-- Witness for C7 amended: retries = 3, one timeout then a transport error;
`ping` returns `Err` after 2 attempts, and a cycle whose default stream is
that sequence is a pure no-op apart from the default probe. -/
theorem ping_transport_err_aborts_witness :
    pingRun 3 (pingCount 3) [PingItem.timeout, PingItem.throwErr] =
        { outcome := .err, consumed := 2, sleeps500 := 1 } ∧
    cycle 3 (initState ⟨true⟩)
        ⟨[PingItem.timeout, PingItem.throwErr], [PingItem.success],
          false, false, 0⟩ =
      (initState ⟨true⟩, [Eff.probe Path.defaultPath]) := by
  have h := ping_transport_err_aborts 3 [PingItem.timeout] []
    (by decide) (by decide)
  exact ⟨h.1, h.2 (initState ⟨true⟩) _ rfl⟩

/-- C8: `inject_nat_masquerade` and `cleanup_nat_masquerade` are
idempotent with a fault-free backend: each issues the existence check first,
returns `Ok` in every case (in particular, never an error when the backend is
already in the target state), mutates (insert resp. delete) exactly when the
current state differs from the target, and two consecutive calls with no
external change issue exactly one mutating backend call when a mutation is
needed at all (none when the backend already matches the target). -/
theorem firewall_idempotent (b : Backend) :
    ((inject_nat_masquerade b false false).1 = FwResult.ok ∧
     (inject_nat_masquerade b false false).2.1 = { rulePresent := true } ∧
     (inject_nat_masquerade b false false).2.2.head? = some Eff.fwExists ∧
     (inject_nat_masquerade b false false).2.2.filter Eff.isFwMutation =
       (if b.rulePresent then [] else [Eff.fwInsert]) ∧
     (((inject_nat_masquerade b false false).2.2 ++
         (inject_nat_masquerade (inject_nat_masquerade b false false).2.1
           false false).2.2).filter Eff.isFwMutation).length =
       (if b.rulePresent then 0 else 1)) ∧
    ((cleanup_nat_masquerade b false false).1 = FwResult.ok ∧
     (cleanup_nat_masquerade b false false).2.1 = { rulePresent := false } ∧
     (cleanup_nat_masquerade b false false).2.2.head? = some Eff.fwExists ∧
     (cleanup_nat_masquerade b false false).2.2.filter Eff.isFwMutation =
       (if b.rulePresent then [Eff.fwDelete] else []) ∧
     (((cleanup_nat_masquerade b false false).2.2 ++
         (cleanup_nat_masquerade (cleanup_nat_masquerade b false false).2.1
           false false).2.2).filter Eff.isFwMutation).length =
       (if b.rulePresent then 1 else 0)) := by
  obtain ⟨p⟩ := b
  cases p <;> decide

/-- C3: a cycle whose default-path probe verdict is `Err` — `ping` folds
both remote Unreachable (retry exhaustion) and probe-local Inconclusive
(transport error) into that one `Err` — performs no firewall call and no
notifier call, and the firewall rule state, the `nat_switch` and the alert
timestamps are exactly the previous cycle's values, for any policy-path
stream (the policy future is never even awaited). -/
theorem wan_degraded_frame (retries : Nat) (s : LoopState) (inp : CycleInput)
    (h : (pingRun retries (pingCount retries) inp.defaultItems).outcome =
      PingOutcome.err) :
    cycle retries s inp = (s, [Eff.probe Path.defaultPath]) ∧
    ∀ e ∈ (cycle retries s inp).2, e.isFwCall = false ∧ e.isPost = false := by
  have hc := cycle_default_err retries s inp h
  refine ⟨hc, ?_⟩
  rw [hc]
  intro e he
  simp only [List.mem_singleton] at he
  subst he
  exact ⟨rfl, rfl⟩

/-- Witness for C3: two timeouts exhaust two retries on the default path;
the cycle only logs. -/
theorem wan_degraded_frame_witness :
    cycle 2 (initState { rulePresent := true })
        ⟨[PingItem.timeout, PingItem.timeout], [PingItem.success], false,
          false, 0⟩ =
      (initState { rulePresent := true }, [Eff.probe Path.defaultPath]) :=
  (wan_degraded_frame 2 (initState { rulePresent := true }) _ (by decide)).1

/-- C9 counterexample: with the default-path ping failing (a transport
error item) and a policy-path stream that would succeed, the cycle's trace
contains no policy-path probe at all — the policy future is created but
dropped unawaited (Rust futures are lazy, and main.rs:107 awaits
`future_test_from` only inside the `Ok` branch of `future_default.await`),
refuting "the policy-path probe runs even in cycles where the default-path
probe fails" and "both are awaited before any decision". -/
theorem policy_probe_skipped_counterexample :
    (cycle 5 (initState { rulePresent := false })
        ⟨[PingItem.throwErr], [PingItem.success], false, false, 0⟩).2 =
      [Eff.probe Path.defaultPath] ∧
    Eff.probe Path.policyPath ∉
      (cycle 5 (initState { rulePresent := false })
        ⟨[PingItem.throwErr], [PingItem.success], false, false, 0⟩).2 := by
  decide

/-- C9 amended: the two ping futures are constructed before either is
polled, but they are awaited sequentially, default path first: when the
default probe fails the policy probe's I/O is never performed (the cycle's
trace is just the default probe), and when the default probe succeeds both
probes execute, in that order, before any firewall or notifier effect. -/
theorem sequential_await (retries : Nat) (s : LoopState) (inp : CycleInput) :
    ((pingRun retries (pingCount retries) inp.defaultItems).outcome =
        PingOutcome.err →
      cycle retries s inp = (s, [Eff.probe Path.defaultPath])) ∧
    ((pingRun retries (pingCount retries) inp.defaultItems).outcome =
        PingOutcome.ok →
      (cycle retries s inp).2.take 2 =
        [Eff.probe Path.defaultPath, Eff.probe Path.policyPath]) := by
  constructor
  · exact cycle_default_err retries s inp
  · intro hd
    cases hp : (pingRun retries (pingCount retries) inp.policyItems).outcome
    case err =>
        rcases hinj : inject_nat_masquerade s.backend inp.existsFault
          inp.mutFault with ⟨res, b, fw⟩
        cases res
        case ok =>
            rw [cycle_fallback_ok retries s inp b fw hd hp hinj]
            rfl
        case err =>
            rw [cycle_fallback_fwErr retries s inp b fw hd hp hinj]
            rfl
    case ok =>
        cases hsw : s.nat_switch
        case false =>
            rw [cycle_direct_off retries s inp hd hp hsw]
            rfl
        case true =>
            rcases hcl : cleanup_nat_masquerade s.backend inp.existsFault
              inp.mutFault with ⟨res, b, fw⟩
            cases res
            case ok =>
                rw [cycle_direct_on_ok retries s inp b fw hd hp hsw hcl]
                rfl
            case err =>
                rw [cycle_direct_on_fwErr retries s inp b fw hd hp hsw hcl]
                rfl

/-- Witness for C9 amended: a failing and a succeeding default probe. -/
theorem sequential_await_witness :
    cycle 1 (initState { rulePresent := false })
        ⟨[PingItem.timeout], [PingItem.success], false, false, 0⟩ =
      (initState { rulePresent := false }, [Eff.probe Path.defaultPath]) ∧
    (cycle 1 (initState { rulePresent := false })
        ⟨[PingItem.success], [PingItem.success], false, false, 0⟩).2.take 2 =
      [Eff.probe Path.defaultPath, Eff.probe Path.policyPath] :=
  ⟨(sequential_await 1 (initState { rulePresent := false }) _).1 (by decide),
   (sequential_await 1 (initState { rulePresent := false }) _).2 (by decide)⟩

/-- C2 counterexample: two consecutive cycles both compute desired state
Direct (both probes succeed), yet only one firewall call is made across the
run — the second cycle, finding `nat_switch` already off, invokes neither the
firewall reconciliation nor the notifier (main.rs:131, the Direct branch is
guarded by `if nat_switch`), refuting "reconciliation happens on every such
cycle, not only on observed transitions". -/
theorem direct_skip_reconcile_counterexample :
    ((runCycles 1 (initState { rulePresent := false })
        [⟨[PingItem.success], [PingItem.success], false, false, 0⟩,
         ⟨[PingItem.success], [PingItem.success], false, false, 1⟩]).2.filter
        Eff.isFwCall).length = 1 ∧
    (cycle 1
        { nat_switch := false, alert := Alert.new,
          backend := { rulePresent := false } }
        ⟨[PingItem.success], [PingItem.success], false, false, 1⟩).2.filter
        Eff.isFwCall = [] := by
  decide

/-- C2 amended: in every cycle computing desired state NatFallback
(default probe Ok, policy probe Err) the firewall reconciliation is invoked
regardless of the in-memory `nat_switch`, and the notifier (`alert.trigger`,
one post) is invoked exactly when that reconciliation succeeds — no notifier
call on a firewall failure (main.rs:121-127); in cycles computing Direct
(both probes Ok) the reconciliation is invoked only when `nat_switch` is on —
when the switch is off the cycle performs no firewall call and no notifier
call at all. -/
theorem reconcile_invocation (retries : Nat) (s : LoopState)
    (inp : CycleInput) :
    ((pingRun retries (pingCount retries) inp.defaultItems).outcome =
        PingOutcome.ok →
     (pingRun retries (pingCount retries) inp.policyItems).outcome =
        PingOutcome.err →
     Eff.fwExists ∈ (cycle retries s inp).2) ∧
    ((pingRun retries (pingCount retries) inp.defaultItems).outcome =
        PingOutcome.ok →
     (pingRun retries (pingCount retries) inp.policyItems).outcome =
        PingOutcome.err →
     ((cycle retries s inp).2.filter Eff.isPost).length =
       (if (inject_nat_masquerade s.backend inp.existsFault
              inp.mutFault).1 = FwResult.ok then 1 else 0)) ∧
    ((pingRun retries (pingCount retries) inp.defaultItems).outcome =
        PingOutcome.ok →
     (pingRun retries (pingCount retries) inp.policyItems).outcome =
        PingOutcome.ok →
     s.nat_switch = true →
     Eff.fwExists ∈ (cycle retries s inp).2) ∧
    ((pingRun retries (pingCount retries) inp.defaultItems).outcome =
        PingOutcome.ok →
     (pingRun retries (pingCount retries) inp.policyItems).outcome =
        PingOutcome.ok →
     s.nat_switch = false →
     cycle retries s inp =
       (s, [Eff.probe Path.defaultPath, Eff.probe Path.policyPath])) := by
  refine ⟨?_, ?_, ?_, ?_⟩
  · intro hd hp
    rcases hinj : inject_nat_masquerade s.backend inp.existsFault
      inp.mutFault with ⟨res, b, fw⟩
    have hmem : Eff.fwExists ∈ fw := by
      have h := (fw_exists_mem s.backend inp.existsFault inp.mutFault).1
      rw [hinj] at h
      exact h
    cases res
    case ok =>
        rw [cycle_fallback_ok retries s inp b fw hd hp hinj]
        exact List.mem_cons_of_mem _
          (List.mem_cons_of_mem _ (List.mem_append_left _ hmem))
    case err =>
        rw [cycle_fallback_fwErr retries s inp b fw hd hp hinj]
        exact List.mem_cons_of_mem _ (List.mem_cons_of_mem _ hmem)
  · intro hd hp
    rcases hinj : inject_nat_masquerade s.backend inp.existsFault
      inp.mutFault with ⟨res, b, fw⟩
    have hfw : fw.filter Eff.isPost = [] := by
      have h := (fw_no_post s.backend inp.existsFault inp.mutFault).1
      rw [hinj] at h
      exact h
    cases res
    case ok =>
        rw [cycle_fallback_ok retries s inp b fw hd hp hinj]
        simp [Eff.isPost, List.filter_append, hfw, trigger_post_count]
    case err =>
        rw [cycle_fallback_fwErr retries s inp b fw hd hp hinj]
        simp [Eff.isPost, hfw]
  · intro hd hp hsw
    rcases hcl : cleanup_nat_masquerade s.backend inp.existsFault
      inp.mutFault with ⟨res, b, fw⟩
    have hmem : Eff.fwExists ∈ fw := by
      have h := (fw_exists_mem s.backend inp.existsFault inp.mutFault).2
      rw [hcl] at h
      exact h
    cases res
    case ok =>
        rw [cycle_direct_on_ok retries s inp b fw hd hp hsw hcl]
        exact List.mem_cons_of_mem _
          (List.mem_cons_of_mem _ (List.mem_append_left _ hmem))
    case err =>
        rw [cycle_direct_on_fwErr retries s inp b fw hd hp hsw hcl]
        exact List.mem_cons_of_mem _ (List.mem_cons_of_mem _ hmem)
  · intro hd hp hsw
    exact cycle_direct_off retries s inp hd hp hsw

/-- Witness for C2 amended: the branch shapes at concrete inputs, with one
post emitted by the fault-free (hence succeeding) fallback reconciliation. -/
theorem reconcile_invocation_witness :
    Eff.fwExists ∈
      (cycle 1 (initState { rulePresent := false })
        ⟨[PingItem.success], [PingItem.timeout], false, false, 0⟩).2 ∧
    ((cycle 1 (initState { rulePresent := false })
        ⟨[PingItem.success], [PingItem.timeout], false, false, 0⟩).2.filter
        Eff.isPost).length =
      (if (inject_nat_masquerade
            (initState { rulePresent := false }).backend false false).1 =
          FwResult.ok then 1 else 0) ∧
    Eff.fwExists ∈
      (cycle 1 (initState { rulePresent := true })
        ⟨[PingItem.success], [PingItem.success], false, false, 0⟩).2 ∧
    cycle 1
        { nat_switch := false, alert := Alert.new,
          backend := { rulePresent := false } }
        ⟨[PingItem.success], [PingItem.success], false, false, 0⟩ =
      ({ nat_switch := false, alert := Alert.new,
         backend := { rulePresent := false } },
       [Eff.probe Path.defaultPath, Eff.probe Path.policyPath]) :=
  ⟨(reconcile_invocation 1 (initState { rulePresent := false }) _).1
      (by decide) (by decide),
   (reconcile_invocation 1 (initState { rulePresent := false }) _).2.1
      (by decide) (by decide),
   (reconcile_invocation 1 (initState { rulePresent := true }) _).2.2.1
      (by decide) (by decide) rfl,
   (reconcile_invocation 1
      { nat_switch := false, alert := Alert.new,
        backend := { rulePresent := false } } _).2.2.2
      (by decide) (by decide) rfl⟩

/-- C1 counterexample: two consecutive cycles each compute NatFallback
with a succeeding firewall reconciliation, starting from the loop's initial
state; the run emits TWO "incident opened" posts (posts with an empty
`endsAt`), not one — `alert.trigger` posts unconditionally on every call
(alerts.rs:42), only the `starts_at` timestamp is guarded. -/
theorem fallback_repost_counterexample :
    ((runCycles 1 (initState { rulePresent := false })
        [⟨[PingItem.success], [PingItem.timeout], false, false, 0⟩,
         ⟨[PingItem.success], [PingItem.timeout], false, false, 1⟩]).2.filter
        Eff.isOpenedPost).length = 2 := by
  decide

/-- C1 amended: every successful NatFallback cycle emits exactly one
alert post, an opened-style post (empty `endsAt`), so k consecutive such
cycles emit k opened posts rather than one; the open timestamp `starts_at`
is nevertheless recorded only on the false-to-true transition (an
already-open cycle keeps the old timestamp), and exactly one closed post
(with `endsAt` set) is emitted on the first subsequent successful Direct
cycle, later Direct cycles (switch off) emitting nothing. -/
theorem alert_post_per_cycle (retries : Nat) (s : LoopState)
    (inp : CycleInput) (t : Nat) :
    ((pingRun retries (pingCount retries) inp.defaultItems).outcome =
        PingOutcome.ok →
     (pingRun retries (pingCount retries) inp.policyItems).outcome =
        PingOutcome.err →
     inp.existsFault = false → inp.mutFault = false →
     s.alert.starts_at = some t →
     (cycle retries s inp).2.filter Eff.isPost =
        [Eff.post (some t) s.alert.ends_at] ∧
     (cycle retries s inp).1.alert.starts_at = some t) ∧
    ((pingRun retries (pingCount retries) inp.defaultItems).outcome =
        PingOutcome.ok →
     (pingRun retries (pingCount retries) inp.policyItems).outcome =
        PingOutcome.err →
     inp.existsFault = false → inp.mutFault = false →
     s.alert.starts_at = none →
     (cycle retries s inp).2.filter Eff.isPost =
        [Eff.post (some inp.now) s.alert.ends_at] ∧
     (cycle retries s inp).1.alert.starts_at = some inp.now) ∧
    ((pingRun retries (pingCount retries) inp.defaultItems).outcome =
        PingOutcome.ok →
     (pingRun retries (pingCount retries) inp.policyItems).outcome =
        PingOutcome.ok →
     inp.existsFault = false → inp.mutFault = false →
     s.nat_switch = true → s.alert.starts_at = some t →
     (cycle retries s inp).2.filter Eff.isPost =
        [Eff.post (some t) (some inp.now)] ∧
     (cycle retries s inp).1.alert = Alert.new ∧
     (cycle retries s inp).1.nat_switch = false) ∧
    ((pingRun retries (pingCount retries) inp.defaultItems).outcome =
        PingOutcome.ok →
     (pingRun retries (pingCount retries) inp.policyItems).outcome =
        PingOutcome.ok →
     s.nat_switch = false →
     (cycle retries s inp).2.filter Eff.isPost = []) := by
  refine ⟨?_, ?_, ?_, ?_⟩
  · intro hd hp hef hmf ha
    cases hb : s.backend.rulePresent
    case true =>
        have hinj : inject_nat_masquerade s.backend inp.existsFault
            inp.mutFault = (FwResult.ok, s.backend, [Eff.fwExists]) := by
          rw [hef, hmf]
          simp [inject_nat_masquerade, hb]
        rw [cycle_fallback_ok retries s inp _ _ hd hp hinj]
        simp [Alert.trigger, ha, Eff.isPost, List.filter]
    case false =>
        have hinj : inject_nat_masquerade s.backend inp.existsFault
            inp.mutFault =
            (FwResult.ok, { rulePresent := true },
             [Eff.fwExists, Eff.fwInsert]) := by
          rw [hef, hmf]
          simp [inject_nat_masquerade, hb]
        rw [cycle_fallback_ok retries s inp _ _ hd hp hinj]
        simp [Alert.trigger, ha, Eff.isPost, List.filter]
  · intro hd hp hef hmf ha
    cases hb : s.backend.rulePresent
    case true =>
        have hinj : inject_nat_masquerade s.backend inp.existsFault
            inp.mutFault = (FwResult.ok, s.backend, [Eff.fwExists]) := by
          rw [hef, hmf]
          simp [inject_nat_masquerade, hb]
        rw [cycle_fallback_ok retries s inp _ _ hd hp hinj]
        simp [Alert.trigger, ha, Eff.isPost, List.filter]
    case false =>
        have hinj : inject_nat_masquerade s.backend inp.existsFault
            inp.mutFault =
            (FwResult.ok, { rulePresent := true },
             [Eff.fwExists, Eff.fwInsert]) := by
          rw [hef, hmf]
          simp [inject_nat_masquerade, hb]
        rw [cycle_fallback_ok retries s inp _ _ hd hp hinj]
        simp [Alert.trigger, ha, Eff.isPost, List.filter]
  · intro hd hp hef hmf hsw ha
    cases hb : s.backend.rulePresent
    case true =>
        have hcl : cleanup_nat_masquerade s.backend inp.existsFault
            inp.mutFault =
            (FwResult.ok, { rulePresent := false },
             [Eff.fwExists, Eff.fwDelete]) := by
          rw [hef, hmf]
          simp [cleanup_nat_masquerade, hb]
        rw [cycle_direct_on_ok retries s inp _ _ hd hp hsw hcl]
        simp [Alert.resolve, ha, Eff.isPost, List.filter]
    case false =>
        have hcl : cleanup_nat_masquerade s.backend inp.existsFault
            inp.mutFault = (FwResult.ok, s.backend, [Eff.fwExists]) := by
          rw [hef, hmf]
          simp [cleanup_nat_masquerade, hb]
        rw [cycle_direct_on_ok retries s inp _ _ hd hp hsw hcl]
        simp [Alert.resolve, ha, Eff.isPost, List.filter]
  · intro hd hp hsw
    rw [cycle_direct_off retries s inp hd hp hsw]
    rfl

/-- Witness for C1 amended: the four branch shapes at concrete inputs (an
already-open fallback cycle reposts with the old timestamp 7; a fresh
fallback cycle stamps `now = 8`; the closing Direct cycle posts start 7 /
end 9; a steady Direct cycle posts nothing). -/
theorem alert_post_per_cycle_witness :
    (cycle 1
        { nat_switch := true,
          alert := { starts_at := some 7, ends_at := none },
          backend := { rulePresent := true } }
        ⟨[PingItem.success], [PingItem.timeout], false, false, 8⟩).2.filter
        Eff.isPost = [Eff.post (some 7) none] ∧
    (cycle 1 (initState { rulePresent := false })
        ⟨[PingItem.success], [PingItem.timeout], false, false, 8⟩).2.filter
        Eff.isPost = [Eff.post (some 8) none] ∧
    (cycle 1
        { nat_switch := true,
          alert := { starts_at := some 7, ends_at := none },
          backend := { rulePresent := true } }
        ⟨[PingItem.success], [PingItem.success], false, false, 9⟩).2.filter
        Eff.isPost = [Eff.post (some 7) (some 9)] ∧
    (cycle 1
        { nat_switch := false, alert := Alert.new,
          backend := { rulePresent := false } }
        ⟨[PingItem.success], [PingItem.success], false, false, 9⟩).2.filter
        Eff.isPost = [] :=
  ⟨((alert_post_per_cycle 1
      { nat_switch := true,
        alert := { starts_at := some 7, ends_at := none },
        backend := { rulePresent := true } }
      ⟨[PingItem.success], [PingItem.timeout], false, false, 8⟩ 7).1
      (by decide) (by decide) rfl rfl rfl).1,
   ((alert_post_per_cycle 1 (initState { rulePresent := false })
      ⟨[PingItem.success], [PingItem.timeout], false, false, 8⟩ 0).2.1
      (by decide) (by decide) rfl rfl rfl).1,
   ((alert_post_per_cycle 1
      { nat_switch := true,
        alert := { starts_at := some 7, ends_at := none },
        backend := { rulePresent := true } }
      ⟨[PingItem.success], [PingItem.success], false, false, 9⟩ 7).2.2.1
      (by decide) (by decide) rfl rfl rfl rfl).1,
   (alert_post_per_cycle 1
      { nat_switch := false, alert := Alert.new,
        backend := { rulePresent := false } }
      ⟨[PingItem.success], [PingItem.success], false, false, 9⟩ 0).2.2.2
      (by decide) (by decide) rfl⟩

/-- C4: after any cycle that invokes a firewall reconciliation (default
probe Ok, and either the policy probe failed — NatFallback — or the switch
was on in the Direct case) with all this cycle's firewall operations
succeeding (no backend faults), the incident-open flag equals the failover
state: `alert.starts_at.is_some() == nat_switch`.  The hypothesis quantifies
over EVERY prior state, diverged ones included, so a later cycle with the
same verdicts and a succeeding firewall operation restores the equality; on
a firewall failure the cycle leaves both fields untouched
(main.rs:122, 134). -/
theorem incident_switch_invariant (retries : Nat) (s : LoopState)
    (inp : CycleInput)
    (hd : (pingRun retries (pingCount retries) inp.defaultItems).outcome =
      PingOutcome.ok)
    (hef : inp.existsFault = false) (hmf : inp.mutFault = false)
    (hrec : (pingRun retries (pingCount retries) inp.policyItems).outcome =
        PingOutcome.err ∨ s.nat_switch = true) :
    (cycle retries s inp).1.alert.starts_at.isSome =
      (cycle retries s inp).1.nat_switch := by
  cases hp : (pingRun retries (pingCount retries) inp.policyItems).outcome
  case err =>
    cases hb : s.backend.rulePresent
    case true =>
        have hinj : inject_nat_masquerade s.backend inp.existsFault
            inp.mutFault = (FwResult.ok, s.backend, [Eff.fwExists]) := by
          rw [hef, hmf]
          simp [inject_nat_masquerade, hb]
        rw [cycle_fallback_ok retries s inp _ _ hd hp hinj]
        cases ha : s.alert.starts_at <;> simp [Alert.trigger, ha]
    case false =>
        have hinj : inject_nat_masquerade s.backend inp.existsFault
            inp.mutFault =
            (FwResult.ok, { rulePresent := true },
             [Eff.fwExists, Eff.fwInsert]) := by
          rw [hef, hmf]
          simp [inject_nat_masquerade, hb]
        rw [cycle_fallback_ok retries s inp _ _ hd hp hinj]
        cases ha : s.alert.starts_at <;> simp [Alert.trigger, ha]
  case ok =>
    have hsw : s.nat_switch = true := by
      rcases hrec with h | h
      · rw [hp] at h
        cases h
      · exact h
    cases hb : s.backend.rulePresent
    case true =>
        have hcl : cleanup_nat_masquerade s.backend inp.existsFault
            inp.mutFault =
            (FwResult.ok, { rulePresent := false },
             [Eff.fwExists, Eff.fwDelete]) := by
          rw [hef, hmf]
          simp [cleanup_nat_masquerade, hb]
        rw [cycle_direct_on_ok retries s inp _ _ hd hp hsw hcl]
        cases ha : s.alert.starts_at <;>
          simp [Alert.resolve, ha, Alert.new]
    case false =>
        have hcl : cleanup_nat_masquerade s.backend inp.existsFault
            inp.mutFault = (FwResult.ok, s.backend, [Eff.fwExists]) := by
          rw [hef, hmf]
          simp [cleanup_nat_masquerade, hb]
        rw [cycle_direct_on_ok retries s inp _ _ hd hp hsw hcl]
        cases ha : s.alert.starts_at <;>
          simp [Alert.resolve, ha, Alert.new]

/-- Witness for C4: the first NatFallback cycle from the initial state. -/
theorem incident_switch_invariant_witness :
    (cycle 1 (initState { rulePresent := false })
        ⟨[PingItem.success], [PingItem.timeout], false, false, 0⟩).1.alert.starts_at.isSome =
      (cycle 1 (initState { rulePresent := false })
        ⟨[PingItem.success], [PingItem.timeout], false, false, 0⟩).1.nat_switch :=
  incident_switch_invariant 1 (initState { rulePresent := false })
    ⟨[PingItem.success], [PingItem.timeout], false, false, 0⟩
    (by decide) rfl rfl (Or.inl (by decide))

/-- C5: restart convergence — from the loop's initial in-memory state
(`nat_switch = true`, fresh alert, as after a process restart) with the
masquerade rule already present in the backend, any number of WAN-degraded
(default-Err) cycles followed by the first cycle computing Direct (both
probes Ok) with fault-free backend calls ends with the rule deleted: the
cleanup reconciliation runs and issues the `delete` call even though this
process never inserted the rule. -/
theorem restart_convergence (retries : Nat) (pre : List CycleInput)
    (inp : CycleInput)
    (hpre : ∀ i ∈ pre,
      (pingRun retries (pingCount retries) i.defaultItems).outcome =
        PingOutcome.err)
    (hd : (pingRun retries (pingCount retries) inp.defaultItems).outcome =
      PingOutcome.ok)
    (hp : (pingRun retries (pingCount retries) inp.policyItems).outcome =
      PingOutcome.ok)
    (hef : inp.existsFault = false) (hmf : inp.mutFault = false) :
    (runCycles retries (initState { rulePresent := true })
        (pre ++ [inp])).1.backend = { rulePresent := false } ∧
    Eff.fwDelete ∈
      (runCycles retries (initState { rulePresent := true })
        (pre ++ [inp])).2 := by
  have hs1 : (runCycles retries (initState { rulePresent := true }) pre).1 =
      initState { rulePresent := true } :=
    runCycles_state_of_err retries (initState { rulePresent := true }) pre
      hpre
  have hcl : cleanup_nat_masquerade
      (initState { rulePresent := true }).backend inp.existsFault
      inp.mutFault =
      (FwResult.ok, { rulePresent := false },
       [Eff.fwExists, Eff.fwDelete]) := by
    rw [hef, hmf]
    simp [cleanup_nat_masquerade, initState]
  have hcyc := cycle_direct_on_ok retries
    (initState { rulePresent := true }) inp { rulePresent := false }
    [Eff.fwExists, Eff.fwDelete] hd hp rfl hcl
  rw [runCycles_append, hs1]
  constructor
  · simp [runCycles, hcyc]
  · simp [runCycles, hcyc, List.mem_append]

/-- Witness for C5: one degraded cycle, then a Direct cycle; the
pre-existing rule is removed. -/
theorem restart_convergence_witness :
    (runCycles 1 (initState { rulePresent := true })
        [⟨[PingItem.timeout], [PingItem.success], false, false, 0⟩,
         ⟨[PingItem.success], [PingItem.success], false, false, 1⟩]).1.backend
      = { rulePresent := false } ∧
    Eff.fwDelete ∈
      (runCycles 1 (initState { rulePresent := true })
        [⟨[PingItem.timeout], [PingItem.success], false, false, 0⟩,
         ⟨[PingItem.success], [PingItem.success], false, false, 1⟩]).2 :=
  restart_convergence 1
    [⟨[PingItem.timeout], [PingItem.success], false, false, 0⟩]
    ⟨[PingItem.success], [PingItem.success], false, false, 1⟩
    (by decide) (by decide) (by decide) rfl rfl

end NatFailover
